import Mathlib

/-!
Verification of the input-generation core of LibAFL
(`src/libafl/src/generators/mod.rs`): the `Generator` contract and the two
concrete generators `RandBytesGenerator` and `RandPrintablesGenerator`.

Bytes are modelled as natural numbers below 256, byte buffers as `List Nat`,
and the external randomness capability (the `Rand` trait of `bolts::rands`,
which is not part of the sources under verification) as an oracle sequence
of draws, following the interface description of the specification.
-/

namespace LibAFL

/-- The error type of the crate; `generate` can in principle signal a
generation error through the fallible `Result` contract. -/
inductive Error where
  | generationError : Error
deriving DecidableEq, Repr

/-- Modelled from the spec: the randomness capability consumed by generators.
It is an opaque source; we model it as an oracle giving, for every call index
and requested bound, an underlying raw draw. -/
structure RandSource where
  draw : Nat → Nat → Nat

/-- The per-call mutable state threading the randomness capability: the
source plus the index of the next draw to consume. -/
structure RandState where
  src : RandSource
  idx : Nat

/-- Modelled from the spec: `below(bound)` returns a value in `[0, bound)`,
consuming one draw from the source; on the degenerate bound `0` (an empty
range) it follows a total policy and returns `0` without consuming a draw. -/
def RandState.below (s : RandState) (bound : Nat) : Nat × RandState :=
  if bound = 0 then (0, s)
  else (s.src.draw s.idx bound % bound, ⟨s.src, s.idx + 1⟩)

/-- Modelled from the spec: `choose(set)` returns an element of a fixed
non-empty collection, selected by a bounded draw below the collection size. -/
def RandState.choose (s : RandState) (xs : List Nat) : Nat × RandState :=
  let p := s.below xs.length
  (xs.getD p.1 0, p.2)

/-- `BytesInput`: an owned variable-length byte buffer. -/
structure BytesInput where
  bytes : List Nat
deriving DecidableEq, Repr

/-- `BytesInput::new`: wraps an owned byte sequence. -/
def BytesInput.new (b : List Nat) : BytesInput := ⟨b⟩

/-- The maximum size of dummy bytes generated by the dummy generator methods. -/
def DUMMY_BYTES_MAX : Nat := 64

/-- `RandBytesGenerator`: configuration is the single field `max_size`
(the phantom state parameter carries no data and is dropped). -/
structure RandBytesGenerator where
  max_size : Nat
deriving DecidableEq, Repr

/-- `RandBytesGenerator::new(max_size)`. -/
def RandBytesGenerator.new (max_size : Nat) : RandBytesGenerator :=
  ⟨max_size⟩

/-- The loop `(0..size).map(|_| state.rand_mut().below(256) as u8).collect()`:
draws `n` bytes in order, threading the randomness state; the cast `as u8`
is reduction modulo 256. -/
def drawRandomBytes : Nat → RandState → List Nat × RandState
  | 0, s => ([], s)
  | n + 1, s =>
    let p := s.below 256
    let q := drawRandomBytes n p.2
    (p.1 % 256 :: q.1, q.2)

/-- `RandBytesGenerator::generate`: draws a size below `max_size`, coerces a
zero draw to 1, then draws that many random bytes and returns them as an
`Ok` input. The returned generator component is the value of `self` when the
mutable borrow ends (the body assigns no field of `self`). -/
def RandBytesGenerator.generate (g : RandBytesGenerator) (state : RandState) :
    (Except Error BytesInput × RandState) × RandBytesGenerator :=
  let p := state.below g.max_size
  let size := if p.1 = 0 then 1 else p.1
  let q := drawRandomBytes size p.2
  ((Except.ok (BytesInput.new q.1), q.2), g)

/-- `RandBytesGenerator::generate_dummy`: `min(max_size, DUMMY_BYTES_MAX)`
zero bytes, ignoring the state. -/
def RandBytesGenerator.generate_dummy (g : RandBytesGenerator)
    (_state : RandState) : BytesInput :=
  BytesInput.new (List.replicate (min g.max_size DUMMY_BYTES_MAX) 0)

/-- The bytes of the fixed printable-alphabet string literal of the source:
digits, uppercase letters, lowercase letters, space, tab, newline, and 32
punctuation characters - 97 bytes in total. -/
def printables : List Nat :=
  [48, 49, 50, 51, 52, 53, 54, 55, 56, 57,
   65, 66, 67, 68, 69, 70, 71, 72, 73, 74, 75, 76, 77, 78, 79, 80,
   81, 82, 83, 84, 85, 86, 87, 88, 89, 90,
   97, 98, 99, 100, 101, 102, 103, 104, 105, 106, 107, 108, 109, 110,
   111, 112, 113, 114, 115, 116, 117, 118, 119, 120, 121, 122,
   32, 9, 10,
   33, 34, 35, 36, 37, 38, 39, 40, 41, 42, 43, 44, 45, 46, 47,
   58, 59, 60, 61, 62, 63, 64,
   91, 92, 93, 94, 95, 96, 123, 124, 125, 126]

/-- `RandPrintablesGenerator`: configuration is the single field `max_size`. -/
structure RandPrintablesGenerator where
  max_size : Nat
deriving DecidableEq, Repr

/-- `RandPrintablesGenerator::new(max_size)`. -/
def RandPrintablesGenerator.new (max_size : Nat) : RandPrintablesGenerator :=
  ⟨max_size⟩

/-- The loop `(0..size).map(|_| *state.rand_mut().choose(printables)).collect()`:
draws `n` printable bytes in order, threading the randomness state. -/
def drawPrintableBytes : Nat → RandState → List Nat × RandState
  | 0, s => ([], s)
  | n + 1, s =>
    let p := s.choose printables
    let q := drawPrintableBytes n p.2
    (p.1 :: q.1, q.2)

/-- `RandPrintablesGenerator::generate`: same size policy as the bytes
generator; each symbol is chosen from the fixed printable alphabet. -/
def RandPrintablesGenerator.generate (g : RandPrintablesGenerator)
    (state : RandState) :
    (Except Error BytesInput × RandState) × RandPrintablesGenerator :=
  let p := state.below g.max_size
  let size := if p.1 = 0 then 1 else p.1
  let q := drawPrintableBytes size p.2
  ((Except.ok (BytesInput.new q.1), q.2), g)

/-- `RandPrintablesGenerator::generate_dummy`: `min(max_size, DUMMY_BYTES_MAX)`
zero bytes, ignoring the state. -/
def RandPrintablesGenerator.generate_dummy (g : RandPrintablesGenerator)
    (_state : RandState) : BytesInput :=
  BytesInput.new (List.replicate (min g.max_size DUMMY_BYTES_MAX) 0)

/-- Whether a `generate` result is on the `Ok` path. -/
def exceptIsOk : Except Error BytesInput → Bool
  | Except.ok _ => true
  | Except.error _ => false

/-- The byte buffer carried by an `Ok` result (empty on the error path). -/
def resultBytes : Except Error BytesInput → List Nat
  | Except.ok b => b.bytes
  | Except.error _ => []

/-- Spec-level model of one `generate` call on the bytes generator, per the
ordering guarantee of the specification: the length is drawn exactly once, at
draw index `st.idx`, before any symbol draw; symbol `j` of the output comes
from draw index `st.idx + 1 + j` (strictly increasing order, one draw per
output byte) and the bytes are assembled in draw order. -/
def bytesGenerateSpec (g : RandBytesGenerator) (st : RandState) :
    (Except Error BytesInput × RandState) × RandBytesGenerator :=
  let d := st.src.draw st.idx g.max_size % g.max_size
  let size := if d = 0 then 1 else d
  ((Except.ok (BytesInput.new ((List.range size).map
      (fun j => st.src.draw (st.idx + 1 + j) 256 % 256))),
    ⟨st.src, st.idx + 1 + size⟩), g)

/-- Spec-level model of one `generate` call on the printables generator,
with the same ordering guarantee: one length draw first, then one
alphabet-selection draw per output symbol in strictly increasing index
order, assembled in draw order. -/
def printablesGenerateSpec (g : RandPrintablesGenerator) (st : RandState) :
    (Except Error BytesInput × RandState) × RandPrintablesGenerator :=
  let d := st.src.draw st.idx g.max_size % g.max_size
  let size := if d = 0 then 1 else d
  ((Except.ok (BytesInput.new ((List.range size).map
      (fun j => printables.getD (st.src.draw (st.idx + 1 + j) 97 % 97) 0))),
    ⟨st.src, st.idx + 1 + size⟩), g)

theorem drawRandomBytes_eq (n : Nat) (s : RandState) :
    drawRandomBytes n s =
      ((List.range n).map (fun j => s.src.draw (s.idx + j) 256 % 256),
        ⟨s.src, s.idx + n⟩) := by
  induction n generalizing s with
  | zero => simp [drawRandomBytes]
  | succ n ih =>
    simp only [drawRandomBytes, RandState.below, if_neg (by omega : ¬ (256 = 0))]
    rw [ih]
    refine Prod.ext ?_ ?_
    · simp only [List.range_succ_eq_map, List.map_cons, List.map_map]
      refine congrArg₂ _ ?_ ?_
      · simp [Nat.mod_mod_of_dvd]
      · refine List.map_congr_left ?_
        intro j _
        simp only [Function.comp]
        exact congrArg (fun k => s.src.draw k 256 % 256) (by omega)
    · exact congrArg (RandState.mk s.src) (show s.idx + 1 + n = s.idx + (n + 1) by omega)

theorem drawPrintableBytes_eq (n : Nat) (s : RandState) :
    drawPrintableBytes n s =
      ((List.range n).map
          (fun j => printables.getD (s.src.draw (s.idx + j) 97 % 97) 0),
        ⟨s.src, s.idx + n⟩) := by
  induction n generalizing s with
  | zero => simp [drawPrintableBytes]
  | succ n ih =>
    simp only [drawPrintableBytes, RandState.choose, RandState.below,
      show printables.length = 97 from rfl, if_neg (by omega : ¬ (97 = 0))]
    rw [ih]
    refine Prod.ext ?_ ?_
    · simp only [List.range_succ_eq_map, List.map_cons, List.map_map]
      refine congrArg₂ _ rfl ?_
      refine List.map_congr_left ?_
      intro j _
      simp only [Function.comp]
      exact congrArg (fun k => printables.getD (s.src.draw k 97 % 97) 0) (by omega)
    · exact congrArg (RandState.mk s.src) (show s.idx + 1 + n = s.idx + (n + 1) by omega)

theorem drawRandomBytes_fst_length (n : Nat) (s : RandState) :
    (drawRandomBytes n s).1.length = n := by
  rw [drawRandomBytes_eq]
  simp

theorem drawPrintableBytes_fst_length (n : Nat) (s : RandState) :
    (drawPrintableBytes n s).1.length = n := by
  rw [drawPrintableBytes_eq]
  simp

theorem below_fst_lt (s : RandState) (m : Nat) (h : 0 < m) :
    (s.below m).1 < m := by
  simp only [RandState.below, if_neg (Nat.pos_iff_ne_zero.mp h)]
  exact Nat.mod_lt _ h

theorem bytes_generate_result_length (g : RandBytesGenerator) (st : RandState) :
    (resultBytes (g.generate st).1.1).length
      = if (st.below g.max_size).1 = 0 then 1 else (st.below g.max_size).1 := by
  simp only [RandBytesGenerator.generate, resultBytes, BytesInput.new,
    drawRandomBytes_fst_length]

theorem printables_generate_result_length (g : RandPrintablesGenerator)
    (st : RandState) :
    (resultBytes (g.generate st).1.1).length
      = if (st.below g.max_size).1 = 0 then 1 else (st.below g.max_size).1 := by
  simp only [RandPrintablesGenerator.generate, resultBytes, BytesInput.new,
    drawPrintableBytes_fst_length]

theorem bytes_generate_eq_spec (g : RandBytesGenerator) (st : RandState)
    (h : g.max_size ≠ 0) : g.generate st = bytesGenerateSpec g st := by
  simp only [RandBytesGenerator.generate, bytesGenerateSpec, RandState.below,
    if_neg h, drawRandomBytes_eq]

theorem printables_generate_eq_spec (g : RandPrintablesGenerator)
    (st : RandState) (h : g.max_size ≠ 0) :
    g.generate st = printablesGenerateSpec g st := by
  simp only [RandPrintablesGenerator.generate, printablesGenerateSpec,
    RandState.below, if_neg h, drawPrintableBytes_eq]

theorem size_policy_bounds (m d : Nat) (h : 1 ≤ m) (hd : d < m) :
    1 ≤ (if d = 0 then 1 else d) ∧ (if d = 0 then 1 else d) ≤ m := by
  split <;> omega

theorem printables_getD_mem (i : Nat) (h : i < 97) :
    printables.getD i 0 ∈ printables := by
  have hl : i < printables.length := by
    rw [show printables.length = 97 from rfl]
    exact h
  rw [List.getD_eq_getElem printables 0 hl]
  exact List.getElem_mem hl

/-- A concrete deterministic randomness source used to instantiate the
universally quantified theorems below on explicit inputs. -/
def testSrc : RandSource := ⟨fun i b => i + b⟩

/-- A concrete randomness state over `testSrc`, starting at draw index 0. -/
def testState : RandState := ⟨testSrc, 0⟩

/-- A randomness source all of whose draws are 0. -/
def zeroSrc : RandSource := ⟨fun _ _ => 0⟩

/-- C1 (amended): for every `max_size ≥ 1` and every randomness state,
`RandPrintablesGenerator::generate` returns `Ok` with an input whose length
lies in `[1, max_size]` and every byte of which is a member of the fixed
printable alphabet - which has 97 characters (digits, upper and lower case
letters, common punctuation, space, tab, newline), not 99. -/
theorem printables_generate_in_alphabet (g : RandPrintablesGenerator)
    (st : RandState) (h : 1 ≤ g.max_size) :
    printables.length = 97 ∧
    exceptIsOk (g.generate st).1.1 = true ∧
    1 ≤ (resultBytes (g.generate st).1.1).length ∧
    (resultBytes (g.generate st).1.1).length ≤ g.max_size ∧
    (resultBytes (g.generate st).1.1).all
      (fun b => decide (b ∈ printables)) = true := by
  have hne : g.max_size ≠ 0 := by omega
  have hlt := below_fst_lt st g.max_size (by omega)
  have hb := size_policy_bounds g.max_size ((st.below g.max_size).1) h hlt
  refine ⟨rfl, rfl, ?_, ?_, ?_⟩
  · rw [printables_generate_result_length]
    exact hb.1
  · rw [printables_generate_result_length]
    exact hb.2
  · rw [printables_generate_eq_spec g st hne]
    simp only [printablesGenerateSpec, resultBytes, BytesInput.new,
      List.all_eq_true]
    intro x hx
    obtain ⟨j, hj, rfl⟩ := List.mem_map.mp hx
    rw [decide_eq_true_eq]
    exact printables_getD_mem _ (Nat.mod_lt _ (by omega))

/-- C1 counterexample: the fixed printable alphabet of the source has 97
characters, not 99 as the claim states. -/
theorem printables_alphabet_length_ne_99 :
    printables.length = 97 ∧ printables.length ≠ 99 := by
  decide

/-- C1 witness: the amended statement instantiated at `max_size = 5` and a
concrete randomness state. -/
theorem printables_generate_in_alphabet_witness :
    printables.length = 97 ∧
    exceptIsOk ((RandPrintablesGenerator.new 5).generate testState).1.1
      = true ∧
    1 ≤ (resultBytes
          ((RandPrintablesGenerator.new 5).generate testState).1.1).length ∧
    (resultBytes
        ((RandPrintablesGenerator.new 5).generate testState).1.1).length
      ≤ 5 ∧
    (resultBytes ((RandPrintablesGenerator.new 5).generate testState).1.1).all
      (fun b => decide (b ∈ printables)) = true :=
  printables_generate_in_alphabet (RandPrintablesGenerator.new 5) testState
    (by decide)

/-- C2: for every `max_size ≥ 1` and every randomness state,
`RandBytesGenerator::generate` returns `Ok` with an input whose length lies
in `[1, max_size]` - never 0 and never exceeding `max_size`. -/
theorem bytes_generate_length_in_range (g : RandBytesGenerator)
    (st : RandState) (h : 1 ≤ g.max_size) :
    exceptIsOk (g.generate st).1.1 = true ∧
    1 ≤ (resultBytes (g.generate st).1.1).length ∧
    (resultBytes (g.generate st).1.1).length ≤ g.max_size := by
  have hlt := below_fst_lt st g.max_size (by omega)
  have hb := size_policy_bounds g.max_size ((st.below g.max_size).1) h hlt
  refine ⟨rfl, ?_, ?_⟩
  · rw [bytes_generate_result_length]
    exact hb.1
  · rw [bytes_generate_result_length]
    exact hb.2

/-- C2 witness: the statement instantiated at `max_size = 7` and a concrete
randomness state. -/
theorem bytes_generate_length_in_range_witness :
    exceptIsOk ((RandBytesGenerator.new 7).generate testState).1.1 = true ∧
    1 ≤ (resultBytes
          ((RandBytesGenerator.new 7).generate testState).1.1).length ∧
    (resultBytes ((RandBytesGenerator.new 7).generate testState).1.1).length
      ≤ 7 :=
  bytes_generate_length_in_range (RandBytesGenerator.new 7) testState
    (by decide)

/-- C3: for both generators and every `max_size` and state, `generate_dummy`
returns exactly `min(max_size, 64)` zero bytes; repeated calls with any
states yield byte-identical output, and
`RandBytesGenerator::new(1000).generate_dummy` returns exactly 64 zero
bytes. -/
theorem generate_dummy_deterministic (gb : RandBytesGenerator)
    (gp : RandPrintablesGenerator) (st st2 : RandState) :
    (gb.generate_dummy st).bytes.length = min gb.max_size 64 ∧
    (gb.generate_dummy st).bytes.all (fun b => b == 0) = true ∧
    (gp.generate_dummy st).bytes.length = min gp.max_size 64 ∧
    (gp.generate_dummy st).bytes.all (fun b => b == 0) = true ∧
    gb.generate_dummy st = gb.generate_dummy st2 ∧
    gp.generate_dummy st = gp.generate_dummy st2 ∧
    (RandBytesGenerator.new 1000).generate_dummy st
      = BytesInput.new (List.replicate 64 0) := by
  refine ⟨?_, ?_, ?_, ?_, rfl, rfl, ?_⟩
  · simp [RandBytesGenerator.generate_dummy, BytesInput.new, DUMMY_BYTES_MAX]
  · simp [RandBytesGenerator.generate_dummy, BytesInput.new,
      List.all_eq_true, List.mem_replicate]
  · simp [RandPrintablesGenerator.generate_dummy, BytesInput.new,
      DUMMY_BYTES_MAX]
  · simp [RandPrintablesGenerator.generate_dummy, BytesInput.new,
      List.all_eq_true, List.mem_replicate]
  · simp [RandBytesGenerator.generate_dummy, RandBytesGenerator.new,
      BytesInput.new, DUMMY_BYTES_MAX]

/-- C4: `RandBytesGenerator::generate` draws the length as
`below(max_size)` and coerces a draw of 0 to 1; with `max_size = 10` and a
source whose `below` draws are all 0, the result is a 1-byte input whose
single byte is the first `below(256)` draw of that source, namely 0. -/
theorem bytes_generate_size_coercion (g : RandBytesGenerator) (st : RandState)
    (src : RandSource) (hsrc : ∀ i b, src.draw i b = 0) :
    (resultBytes (g.generate st).1.1).length
        = (if (st.below g.max_size).1 = 0 then 1
           else (st.below g.max_size).1) ∧
    ((RandBytesGenerator.new 10).generate ⟨src, 0⟩).1.1
        = Except.ok (BytesInput.new [src.draw 1 256 % 256]) ∧
    src.draw 1 256 % 256 = 0 := by
  refine ⟨bytes_generate_result_length g st, ?_, by rw [hsrc]⟩
  rw [bytes_generate_eq_spec _ _ (by decide)]
  simp [bytesGenerateSpec, RandBytesGenerator.new, hsrc, List.range_succ]

/-- C4 witness: the statement instantiated at the all-zero source. -/
theorem bytes_generate_size_coercion_witness :
    (resultBytes ((RandBytesGenerator.new 3).generate testState).1.1).length
        = (if (testState.below 3).1 = 0 then 1 else (testState.below 3).1) ∧
    ((RandBytesGenerator.new 10).generate ⟨zeroSrc, 0⟩).1.1
        = Except.ok (BytesInput.new [zeroSrc.draw 1 256 % 256]) ∧
    zeroSrc.draw 1 256 % 256 = 0 :=
  bytes_generate_size_coercion (RandBytesGenerator.new 3) testState zeroSrc
    (fun _ _ => rfl)

/-- C5: for every state, `generate` on both concrete generators always
returns `Ok`; the error path is unreachable. -/
theorem generate_always_ok (gb : RandBytesGenerator)
    (gp : RandPrintablesGenerator) (st st2 : RandState) :
    exceptIsOk (gb.generate st).1.1 = true ∧
    exceptIsOk (gp.generate st2).1.1 = true :=
  ⟨rfl, rfl⟩

/-- C6: a generator constructed with `max_size = 0` is total in `generate`:
the degenerate size draw is handled by the total policy of the randomness
capability together with the zero-coercion, yielding an `Ok` 1-byte
output, for both concrete generators. -/
theorem generate_max_size_zero_total (st st2 : RandState) :
    exceptIsOk ((RandBytesGenerator.new 0).generate st).1.1 = true ∧
    (resultBytes ((RandBytesGenerator.new 0).generate st).1.1).length = 1 ∧
    exceptIsOk ((RandPrintablesGenerator.new 0).generate st2).1.1 = true ∧
    (resultBytes
        ((RandPrintablesGenerator.new 0).generate st2).1.1).length = 1 := by
  refine ⟨rfl, ?_, rfl, ?_⟩
  · rw [bytes_generate_result_length]
    simp [RandState.below, RandBytesGenerator.new]
  · rw [printables_generate_result_length]
    simp [RandState.below, RandPrintablesGenerator.new]

/-- C7: `generate` is deterministic in the randomness sequence: two sources
producing the same draws, consumed from the same index, yield byte-for-byte
identical results on both concrete generators. -/
theorem generate_reproducible (gb : RandBytesGenerator)
    (gp : RandPrintablesGenerator) (src1 src2 : RandSource) (i : Nat)
    (h : ∀ n b, src1.draw n b = src2.draw n b) :
    (gb.generate ⟨src1, i⟩).1.1 = (gb.generate ⟨src2, i⟩).1.1 ∧
    (gp.generate ⟨src1, i⟩).1.1 = (gp.generate ⟨src2, i⟩).1.1 := by
  have hsrc : src1 = src2 := by
    cases src1
    cases src2
    congr 1
    funext n b
    exact h n b
  rw [hsrc]
  exact ⟨rfl, rfl⟩

/-- C7 witness: the statement instantiated at two (identical) concrete
sources. -/
theorem generate_reproducible_witness :
    ((RandBytesGenerator.new 4).generate ⟨testSrc, 0⟩).1.1
        = ((RandBytesGenerator.new 4).generate ⟨testSrc, 0⟩).1.1 ∧
    ((RandPrintablesGenerator.new 4).generate ⟨testSrc, 0⟩).1.1
        = ((RandPrintablesGenerator.new 4).generate ⟨testSrc, 0⟩).1.1 :=
  generate_reproducible (RandBytesGenerator.new 4)
    (RandPrintablesGenerator.new 4) testSrc testSrc 0 (fun _ _ => rfl)

/-- C8: within one `generate` call (with a non-degenerate `max_size`), the
length is drawn exactly once, at the first draw index, before any symbol
draw; symbol `j` then comes from draw index `idx + 1 + j`, in strictly
increasing order, one draw per output byte, assembled in draw order - for
both concrete generators. -/
theorem generate_draw_ordering (gb : RandBytesGenerator)
    (gp : RandPrintablesGenerator) (st st2 : RandState)
    (hb : 0 < gb.max_size) (hp : 0 < gp.max_size) :
    gb.generate st = bytesGenerateSpec gb st ∧
    gp.generate st2 = printablesGenerateSpec gp st2 :=
  ⟨bytes_generate_eq_spec gb st (by omega),
   printables_generate_eq_spec gp st2 (by omega)⟩

/-- C8 witness: the statement instantiated at concrete generators and
states. -/
theorem generate_draw_ordering_witness :
    (RandBytesGenerator.new 3).generate testState
        = bytesGenerateSpec (RandBytesGenerator.new 3) testState ∧
    (RandPrintablesGenerator.new 5).generate ⟨testSrc, 2⟩
        = printablesGenerateSpec (RandPrintablesGenerator.new 5)
            ⟨testSrc, 2⟩ :=
  generate_draw_ordering (RandBytesGenerator.new 3)
    (RandPrintablesGenerator.new 5) testState ⟨testSrc, 2⟩
    (by decide) (by decide)

/-- C9: `generate` never mutates the generator configuration: the value of
`self` after the call equals the value before it, so in particular
`max_size` is unchanged, for both concrete generators. -/
theorem generate_preserves_config (gb : RandBytesGenerator)
    (gp : RandPrintablesGenerator) (st st2 : RandState) :
    (gb.generate st).2 = gb ∧ (gb.generate st).2.max_size = gb.max_size ∧
    (gp.generate st2).2 = gp ∧ (gp.generate st2).2.max_size = gp.max_size :=
  ⟨rfl, rfl, rfl, rfl⟩

/-- C10: for every `max_size ≥ 2`, the input returned by `generate` on
either concrete generator has length at most `max_size - 1`: the length
draw is exclusive of `max_size` and only a drawn 0 is coerced upward. -/
theorem generate_length_le_max_sub_one (gb : RandBytesGenerator)
    (gp : RandPrintablesGenerator) (st st2 : RandState)
    (hb : 2 ≤ gb.max_size) (hp : 2 ≤ gp.max_size) :
    (resultBytes (gb.generate st).1.1).length ≤ gb.max_size - 1 ∧
    (resultBytes (gp.generate st2).1.1).length ≤ gp.max_size - 1 := by
  have h1 := below_fst_lt st gb.max_size (by omega)
  have h2 := below_fst_lt st2 gp.max_size (by omega)
  rw [bytes_generate_result_length, printables_generate_result_length]
  constructor
  · split <;> omega
  · split <;> omega

/-- C10 witness: the statement instantiated at `max_size = 5` and
`max_size = 2` with concrete states. -/
theorem generate_length_le_max_sub_one_witness :
    (resultBytes ((RandBytesGenerator.new 5).generate testState).1.1).length
        ≤ 4 ∧
    (resultBytes
        ((RandPrintablesGenerator.new 2).generate testState).1.1).length
        ≤ 1 :=
  generate_length_le_max_sub_one (RandBytesGenerator.new 5)
    (RandPrintablesGenerator.new 2) testState testState
    (by decide) (by decide)

end LibAFL
